import Mathlib

/-!
Shallow embedding of the python-coordinator supervision engine
(`src/exception.py`, `src/module.py`) and proofs about it.

Fault kinds (Python runtime exception classes) are modelled as `Nat` tags;
a fault value carries its kind tag and the optional instance attribute
`action` consulted by `ExceptionHandler.get_exception_behavior`.
-/

namespace Coordinator

/-- The `ExceptionAction` enum of `src/exception.py`. -/
inductive ExceptionAction where
  | CONTINUE
  | RETRY
  | RAISE
  | LOG_AND_CONTINUE
  | LOG_AND_RETRY
  | CUSTOM
deriving DecidableEq

/-- A fault as seen by the handler: the runtime-class tag (`type(exception)`)
and the optional instance attribute looked up by
`exception.__dict__.get("action", behavior)`. -/
structure Exc where
  kind : Nat
  action : Option ExceptionAction := none
deriving DecidableEq

/-- State of an `ExceptionHandler`: the `exception_behavior` and
`custom_handlers` dictionaries, keyed by fault-kind tag. Python dict update
is modelled by consing, with `List.lookup` returning the most recent binding.
A custom handler either returns normally (`none`) or raises a fault
(`some e`); the value a handler returns is ignored by every caller in the
repository (`_runner`'s except clause and `handle`'s wrapped function both
drop it), so it is not modelled. -/
structure ExceptionHandler where
  exception_behavior : List (Nat × ExceptionAction) := []
  custom_handlers : List (Nat × (Exc → Option Exc)) := []

/-- `ExceptionHandler.set_exception_behavior`: store the behavior under the
fault's kind tag; additionally store the handler when the behavior is
`CUSTOM` and a handler was supplied. -/
def set_exception_behavior (h : ExceptionHandler) (e : Exc)
    (behavior : ExceptionAction)
    (custom_handler : Option (Exc → Option Exc) := none) : ExceptionHandler :=
  let h1 : ExceptionHandler :=
    { h with exception_behavior := (e.kind, behavior) :: h.exception_behavior }
  match behavior, custom_handler with
  | .CUSTOM, some f => { h1 with custom_handlers := (e.kind, f) :: h1.custom_handlers }
  | _, _ => h1

/-- `ExceptionHandler.get_exception_behavior`: look the fault's kind up in
`exception_behavior` with default `RAISE`, then let an instance attribute
`action` on the fault override the result. -/
def get_exception_behavior (h : ExceptionHandler) (e : Exc) : ExceptionAction :=
  let behavior := (h.exception_behavior.lookup e.kind).getD .RAISE
  e.action.getD behavior

/-- Result of a call to `handle_exception`: it either returns normally or
raises a fault to its caller. -/
inductive HandleOutcome where
  | ret
  | raised (e : Exc)
deriving DecidableEq

/-- `ExceptionHandler.handle_exception`: dispatch on the resolved behavior.
`CONTINUE` and `LOG_AND_CONTINUE` return normally; `LOG_AND_RETRY` re-raises
the fault; `CUSTOM` invokes the registered handler when present (returning
normally when none is registered); every other behavior (`RETRY`, `RAISE`)
falls through to the final `raise exception`. -/
def handle_exception (h : ExceptionHandler) (e : Exc) : HandleOutcome :=
  match get_exception_behavior h e with
  | .CONTINUE => .ret
  | .LOG_AND_CONTINUE => .ret
  | .LOG_AND_RETRY => .raised e
  | .CUSTOM =>
      match h.custom_handlers.lookup e.kind with
      | some f =>
          match f e with
          | none => .ret
          | some e' => .raised e'
      | none => .ret
  | _ => .raised e

/-- `ExceptionHandler._exception_giveup`: retry only while the resolved
behavior is `RETRY` or `LOG_AND_RETRY`. -/
def exception_giveup (h : ExceptionHandler) (e : Exc) : Bool :=
  match get_exception_behavior h e with
  | .RETRY => false
  | .LOG_AND_RETRY => false
  | _ => true

/-- The `wrapped_function` closure inside `ExceptionHandler.handle`, at
attempt `i`: call the operation; on a fault, call `handle_exception` and
fall off the end (returning Python `None`, here `Except.ok none`) when it
handles the fault, or let the fault it raises escape. The operation is
modelled as a function from the attempt number to its outcome. -/
def wrapped_function (h : ExceptionHandler) (f : Nat → Except Exc α)
    (i : Nat) : Except Exc (Option α) :=
  match f i with
  | .ok v => .ok (some v)
  | .error e =>
      match handle_exception h e with
      | .ret => .ok none
      | .raised e' => .error e'

/-- Modelled from the documented semantics of the external `backoff` library
(a third-party dependency, not part of this repository):
`backoff.on_exception(..., max_tries, giveup)` calls the wrapped function
until it returns; a raised exception is propagated to the caller as soon as
`giveup` holds for it or the attempt budget is exhausted, and otherwise the
call is repeated after a delay (delays do not affect result values).
`i` is the current attempt number, the second argument the remaining
attempt budget; the budget-0 case is unreachable for a positive
`max_tries`. -/
def backoffRun (h : ExceptionHandler) (f : Nat → Except Exc α) :
    Nat → Nat → Except Exc (Option α)
  | _, 0 => .ok none
  | i, tries + 1 =>
      match wrapped_function h f i with
      | .ok v => .ok v
      | .error e =>
          if exception_giveup h e || tries == 0 then .error e
          else backoffRun h f (i + 1) tries

/-- `ExceptionHandler.handle`: run the operation under the backoff wrapper
with `giveup := _exception_giveup` and a default budget of 10 attempts. -/
def handle (h : ExceptionHandler) (f : Nat → Except Exc α)
    (max_tries : Nat := 10) : Except Exc (Option α) :=
  backoffRun h f 0 max_tries

/-!
The worker thread body `ModuleRunner._runner`. The worker's `run()` hook may
fault; the other hooks (`on_start`, `heartbeat`, `on_stop`) are modelled as
total, which matches the `BaseModule` defaults and the claims, all of which
concern faults raised inside `run()`. The shared `thread_active` flag is an
oracle giving the value read at each loop-head check; `final_active` is the
value read by the `finally` block's `if self.thread_active` test.
-/

/-- Outcome of one `run()` call of the worker instance. -/
inductive RunOutcome where
  | ok
  | fault (e : Exc)
deriving DecidableEq

/-- Observable events of the worker thread: hook invocations, the heartbeat
signal (`heartbeat_event.set()`), and the `self.stop()` call made by the
`finally` block when the running flag is still set (a call that raises
`RuntimeError`, see `ThreadExit`). -/
inductive Ev where
  | on_start
  | run
  | heartbeat
  | hb_set
  | on_stop
  | stop_self
deriving DecidableEq

/-- How `_runner`'s while-loop ended: the flag was observed false, `run()`
raised a fault, or the fuel ran out (a model artifact standing for a loop
still running). -/
inductive LoopExit where
  | normal
  | fault (e : Exc)
  | spin
deriving DecidableEq

/-- The while-loop of `_runner`, from iteration `i` with the given fuel:
while `thread_active` holds, call `run()` (aborting the loop with the fault
it raises, if any), then `heartbeat()`, then set the heartbeat event and
sleep. Returns the events of the loop body and how the loop ended. -/
def runnerLoop (script : Nat → RunOutcome) (active : Nat → Bool) :
    Nat → Nat → List Ev × LoopExit
  | 0, _ => ([], .spin)
  | fuel + 1, i =>
      if active i then
        match script i with
        | .fault e => ([.run], .fault e)
        | .ok =>
            let rest := runnerLoop script active fuel (i + 1)
            (.run :: .heartbeat :: .hb_set :: rest.1, rest.2)
      else ([], .normal)

/-- Exit status of the worker thread body: a clean return; a fault
re-raised by `handle_exception` escaping the thread; or the `RuntimeError`
raised inside the `finally` block when `self.stop()` reaches
`self.module_thread.join()` on the worker's own thread (Python refuses to
join the current thread). Being raised in the `finally` block, that
`RuntimeError` replaces any in-flight fault. -/
inductive ThreadExit where
  | clean
  | raised (e : Exc)
  | stop_error
deriving DecidableEq

/-- `ModuleRunner._runner`: construct the worker, call `on_start()`, run the
loop; on normal loop exit call `on_stop()` in the try body; a fault escaping
the loop is passed to `handle_exception` in the except clause; the `finally`
block then calls `instance.on_stop()` unconditionally and, when
`thread_active` is still set, `self.stop()` — which raises `RuntimeError`
out of the thread body by self-joining the worker thread, replacing any
fault `handle_exception` re-raised. Returns the event trace and the
thread-body exit status, or `none` when the fuel ran out. -/
def runnerTrace (h : ExceptionHandler) (script : Nat → RunOutcome)
    (active : Nat → Bool) (final_active : Bool) (fuel : Nat) :
    Option (List Ev × ThreadExit) :=
  match runnerLoop script active fuel 0 with
  | (_, .spin) => none
  | (evs, .normal) =>
      some (.on_start :: evs ++ [.on_stop, .on_stop] ++
              (if final_active then [.stop_self] else []),
            if final_active then .stop_error else .clean)
  | (evs, .fault e) =>
      match handle_exception h e with
      | .ret =>
          some (.on_start :: evs ++ [.on_stop] ++
                  (if final_active then [.stop_self] else []),
            if final_active then .stop_error else .clean)
      | .raised e' =>
          some (.on_start :: evs ++ [.on_stop] ++
                  (if final_active then [.stop_self] else []),
            if final_active then .stop_error else .raised e')

/-!
The watchdog thread body `ModuleRunner._watchdog`. Worker-side
`heartbeat_event.set()` calls are oracles placed at the three points of an
iteration where they can land: during the timed wait (`dur`), after the wait
returns but before `clear()` (`late`), and after `clear()` but before the
next wait begins (`btw`). `wa` is the `watchdog_active` value read at the
loop head, `wa2` the value re-read just before calling `restart`.
-/

/-- Record of one iteration of the `_watchdog` while-loop. -/
structure WdRec where
  ev_at_wait : Bool
  wait_result : Bool
  restart_arg : Option Bool
deriving DecidableEq

/-- One iteration of the `_watchdog` loop body on the heartbeat-event value
`ev`: `heartbeat_event.wait(timeout=10)` returns true iff the event is set
or becomes set during the wait; on a timed-out wait, log and call
`restart(watchdog := False)` when `watchdog_active` is still set; finally
`heartbeat_event.clear()` runs on every path, discarding any `late`
arrival. Returns the iteration record and the event value at the next
loop-head wait. -/
def watchdogStep (dur late btw wa2 : Nat → Bool) (i : Nat) (ev : Bool) :
    WdRec × Bool :=
  let wait_result := ev || dur i
  let restart_arg : Option Bool :=
    if !wait_result && wa2 i then some false else none
  let _ev_before_clear := wait_result || late i
  let ev_after_clear := false
  (⟨ev, wait_result, restart_arg⟩, ev_after_clear || btw i)

/-- The `_watchdog` while-loop: iterate `watchdogStep` while the
`watchdog_active` flag read at the loop head holds, collecting one record
per iteration. -/
def watchdogRun (wa dur late btw wa2 : Nat → Bool) :
    Nat → Nat → Bool → List WdRec
  | 0, _, _ => []
  | fuel + 1, i, ev =>
      if wa i then
        let step := watchdogStep dur late btw wa2 i ev
        step.1 :: watchdogRun wa dur late btw wa2 fuel (i + 1) step.2
      else []

/-!
The thread-lifecycle state of a `ModuleRunner` and the operations
`_start_thread`, `_start_watchdog`, `_stop_thread`, `_stop_watchdog`,
`start`, `stop`, `restart`. Thread spawning is embedded with a fresh-id
supply `next_id`; `live_workers` / `live_watchdogs` record the ids of
threads that have been started and not yet joined (an upper bound on the
threads alive); `warnings` counts `logger.warning` calls.
-/

/-- Thread-lifecycle state of a `ModuleRunner`. -/
structure RunnerState where
  thread_active : Bool
  module_thread : Option Nat
  watchdog_active : Bool
  watchdog_thread : Option Nat
  next_id : Nat
  live_workers : List Nat
  live_watchdogs : List Nat
  warnings : Nat
deriving DecidableEq

/-- The state after `ModuleRunner.__init__`: no threads, both flags clear. -/
def initial : RunnerState :=
  { thread_active := false
    module_thread := none
    watchdog_active := false
    watchdog_thread := none
    next_id := 0
    live_workers := []
    live_watchdogs := []
    warnings := 0 }

/-- `ModuleRunner._start_thread`: warn and return when already running,
otherwise create and start a fresh worker thread and set the flag. -/
def startThread (s : RunnerState) : RunnerState :=
  if s.thread_active then { s with warnings := s.warnings + 1 }
  else
    { s with
        module_thread := some s.next_id
        live_workers := s.next_id :: s.live_workers
        next_id := s.next_id + 1
        thread_active := true }

/-- `ModuleRunner._start_watchdog`: warn and return when already running,
otherwise create and start a fresh watchdog thread and set the flag. -/
def startWatchdog (s : RunnerState) : RunnerState :=
  if s.watchdog_active then { s with warnings := s.warnings + 1 }
  else
    { s with
        watchdog_thread := some s.next_id
        live_watchdogs := s.next_id :: s.live_watchdogs
        next_id := s.next_id + 1
        watchdog_active := true }

/-- `ModuleRunner._stop_thread`: warn and return when not running, otherwise
clear the flag, join the worker thread (after which it is no longer live)
and drop the handle. -/
def stopThread (s : RunnerState) : RunnerState :=
  if !s.thread_active then { s with warnings := s.warnings + 1 }
  else
    { s with
        thread_active := false
        live_workers :=
          match s.module_thread with
          | some t => s.live_workers.erase t
          | none => s.live_workers
        module_thread := none }

/-- `ModuleRunner._stop_watchdog`: warn and return when not running,
otherwise clear the flag, join the watchdog thread and drop the handle. -/
def stopWatchdog (s : RunnerState) : RunnerState :=
  if !s.watchdog_active then { s with warnings := s.warnings + 1 }
  else
    { s with
        watchdog_active := false
        live_watchdogs :=
          match s.watchdog_thread with
          | some t => s.live_watchdogs.erase t
          | none => s.live_watchdogs
        watchdog_thread := none }

/-- `ModuleRunner.start`: `_start_thread`, then `_start_watchdog` when the
`watchdog` argument is true. -/
def start (s : RunnerState) (watchdog : Bool := true) : RunnerState :=
  let s1 := startThread s
  if watchdog then startWatchdog s1 else s1

/-- `ModuleRunner.stop`: `_stop_watchdog` when the `watchdog` argument is
true, then `_stop_thread`. -/
def stop (s : RunnerState) (watchdog : Bool := true) : RunnerState :=
  let s1 := if watchdog then stopWatchdog s else s
  stopThread s1

/-- `ModuleRunner.restart`: `stop` then `start`, with the same `watchdog`
argument. -/
def restart (s : RunnerState) (watchdog : Bool := true) : RunnerState :=
  start (stop s watchdog) watchdog

/-- Well-formedness of a `RunnerState`: each flag agrees with its handle and
its live-thread list (one live thread with the handle's id when set, none
otherwise). It holds for `initial` and is preserved by every operation. -/
def RunnerState.wf (s : RunnerState) : Bool :=
  (match s.thread_active, s.module_thread with
   | true, some t => s.live_workers == [t]
   | false, none => s.live_workers == []
   | _, _ => false) &&
  (match s.watchdog_active, s.watchdog_thread with
   | true, some t => s.live_watchdogs == [t]
   | false, none => s.live_watchdogs == []
   | _, _ => false)

/-- Handler used in concrete evaluations: fault kind 0 mapped to
`CONTINUE`. -/
def contHandler : ExceptionHandler :=
  set_exception_behavior {} ⟨0, none⟩ .CONTINUE none

/-- Handler used in concrete evaluations: fault kind 1 mapped to `RETRY`. -/
def retryHandler : ExceptionHandler :=
  set_exception_behavior {} ⟨1, none⟩ .RETRY none

/-- A fault of kind 0 with no `action` attribute. -/
def e0 : Exc := ⟨0, none⟩

/-- A fault of kind 1 with no `action` attribute. -/
def e1 : Exc := ⟨1, none⟩

/-- Setting a behavior leaves the `exception_behavior` dictionary with the
new binding in front, whatever the behavior and optional handler. -/
theorem set_exception_behavior_behavior (h : ExceptionHandler) (e : Exc)
    (b : ExceptionAction) (f : Option (Exc → Option Exc)) :
    (set_exception_behavior h e b f).exception_behavior
      = (e.kind, b) :: h.exception_behavior := by
  unfold set_exception_behavior
  cases b <;> cases f <;> rfl

/-- C3: after `set_exception_behavior` registers disposition `b` for the
kind of fault `e`, `get_exception_behavior` on any fault `e2` of the same
kind (carrying no overriding `action` attribute) returns `b`, not the
`RAISE` default. -/
theorem set_then_resolve_roundtrip (h : ExceptionHandler) (e e2 : Exc)
    (b : ExceptionAction) (f : Option (Exc → Option Exc))
    (hk : e2.kind = e.kind) (ha : e2.action = none) :
    get_exception_behavior (set_exception_behavior h e b f) e2 = b := by
  unfold get_exception_behavior
  rw [set_exception_behavior_behavior, ha, hk]
  simp [List.lookup]

/-- Witness for C3 at a concrete input. -/
theorem set_then_resolve_roundtrip_witness :
    (⟨3, none⟩ : Exc).kind = (⟨3, none⟩ : Exc).kind ∧
    (⟨3, none⟩ : Exc).action = none ∧
    get_exception_behavior
      (set_exception_behavior {} ⟨3, none⟩ .RETRY none) ⟨3, none⟩ = .RETRY :=
  ⟨rfl, rfl, set_then_resolve_roundtrip {} ⟨3, none⟩ ⟨3, none⟩ .RETRY none rfl rfl⟩

/-- C4: a fault whose kind has no registered behavior (and which carries no
overriding `action` attribute) resolves to the `RAISE` default, and
`handle_exception` re-raises it to the caller. -/
theorem unmapped_resolves_escalate (h : ExceptionHandler) (e : Exc)
    (hk : h.exception_behavior.lookup e.kind = none) (ha : e.action = none) :
    get_exception_behavior h e = .RAISE ∧ handle_exception h e = .raised e := by
  have hg : get_exception_behavior h e = .RAISE := by
    unfold get_exception_behavior
    rw [hk, ha]
    rfl
  refine ⟨hg, ?_⟩
  unfold handle_exception
  rw [hg]

/-- Witness for C4 at a concrete input. -/
theorem unmapped_resolves_escalate_witness :
    ({} : ExceptionHandler).exception_behavior.lookup (5 : Nat) = none ∧
    (⟨5, none⟩ : Exc).action = none ∧
    get_exception_behavior {} ⟨5, none⟩ = .RAISE ∧
    handle_exception {} ⟨5, none⟩ = .raised ⟨5, none⟩ :=
  ⟨rfl, rfl, (unmapped_resolves_escalate {} ⟨5, none⟩ rfl rfl).1,
    (unmapped_resolves_escalate {} ⟨5, none⟩ rfl rfl).2⟩

/-- C10: a fault carrying an instance attribute `action` resolves to that
attribute's value, overriding the registered mapping and the `RAISE`
default; only a fault without the attribute is resolved through the
registry (with the `RAISE` default). -/
theorem action_attribute_overrides (h : ExceptionHandler) (e : Exc) :
    (∀ d, e.action = some d → get_exception_behavior h e = d) ∧
    (e.action = none →
       get_exception_behavior h e =
         (h.exception_behavior.lookup e.kind).getD ExceptionAction.RAISE) := by
  constructor
  · intro d hd
    unfold get_exception_behavior
    rw [hd]
    rfl
  · intro hn
    unfold get_exception_behavior
    rw [hn]
    rfl

/-- Witness for C10 at a concrete input: kind 1 is mapped to `CONTINUE`,
yet the fault's own `action := RETRY` wins. -/
theorem action_attribute_overrides_witness :
    get_exception_behavior
      (set_exception_behavior {} ⟨1, none⟩ .CONTINUE none)
      ⟨1, some .RETRY⟩ = .RETRY :=
  (action_attribute_overrides
      (set_exception_behavior {} ⟨1, none⟩ .CONTINUE none) ⟨1, some .RETRY⟩).1
    .RETRY rfl

/-- Counterexample to C5 as stated: fault kind 0 is mapped to `CONTINUE`
(a disposition that is neither `RETRY` nor `LOG_AND_RETRY`), the operation
faults with it on every attempt, yet `handle` does not propagate the final
fault to its caller: it swallows it and returns `Except.ok none` (the
Python `None` of the wrapped function). -/
theorem handle_nonretry_counterexample :
    get_exception_behavior contHandler e0 = .CONTINUE ∧
    handle contHandler (fun _ => (.error e0 : Except Exc Nat)) 3 = .ok none ∧
    handle contHandler (fun _ => (.error e0 : Except Exc Nat)) ≠ .error e0 := by
  refine ⟨rfl, rfl, fun hco => ?_⟩
  rw [show handle contHandler (fun _ => (.error e0 : Except Exc Nat))
        = .ok none from rfl] at hco
  exact Except.noConfusion hco

/-- C5 (amended): when the first attempt's fault, handled by
`handle_exception`, does not signal retry — that is, `handle_exception`
either returns normally (`CONTINUE`, `LOG_AND_CONTINUE`, `CUSTOM` with a
normally-returning or absent handler) or re-raises a fault whose own
disposition is neither `RETRY` nor `LOG_AND_RETRY` (`RAISE` re-raises the
original fault; a `CUSTOM` handler may re-raise a different one) — the
bounded-retry wrapper stops after that single attempt; it returns normally
with `none` when the fault was swallowed and propagates the re-raised
fault otherwise. (A `CUSTOM` handler re-raising a `RETRY`-mapped fault is
excluded: there the wrapper keeps looping.) -/
theorem handle_nonretry_stops (h : ExceptionHandler) (f : Nat → Except Exc α)
    (N : Nat) (hN : 0 < N) (e : Exc) (hf : f 0 = .error e)
    (hout : ∀ e', handle_exception h e = .raised e' →
              exception_giveup h e' = true) :
    handle h f N =
      (match handle_exception h e with
       | .ret => .ok none
       | .raised e' => .error e') := by
  obtain ⟨n, rfl⟩ : ∃ n, N = n + 1 := ⟨N - 1, (Nat.succ_pred_eq_of_pos hN).symm⟩
  unfold handle backoffRun wrapped_function
  rw [hf]
  cases hhe : handle_exception h e with
  | ret => simp [hhe]
  | raised e' =>
      have hgu := hout e' hhe
      simp [hhe, hgu]

/-- Witness for the amended C5 at a concrete input: a `CONTINUE`-disposed
fault is swallowed after a single attempt. -/
theorem handle_nonretry_stops_witness :
    0 < 3 ∧
    handle contHandler (fun _ => (.error e0 : Except Exc Nat)) 3 =
      (match handle_exception contHandler e0 with
       | .ret => .ok none
       | .raised e' => .error e') :=
  ⟨by decide,
   handle_nonretry_stops contHandler (fun _ => (.error e0 : Except Exc Nat)) 3
     (by decide) e0 rfl
     (fun e' hco => by
        rw [show handle_exception contHandler e0 = HandleOutcome.ret from rfl] at hco
        exact HandleOutcome.noConfusion hco)⟩

/-- The backoff recursion under a positive budget `n`, when every attempt
from `i` on faults with a `RETRY`-resolved kind, performs exactly `n`
attempts `i, i+1, ..., i+n-1` and propagates the fault of the last one. -/
theorem backoffRun_retry (h : ExceptionHandler) (f : Nat → Except Exc α)
    (err : Nat → Exc) :
    ∀ n i, 0 < n →
      (∀ j, j < n → f (i + j) = .error (err (i + j)) ∧
         get_exception_behavior h (err (i + j)) = .RETRY) →
      backoffRun h f i n = .error (err (i + (n - 1))) := by
  intro n
  induction n with
  | zero => intro i h0; exact absurd h0 (by decide)
  | succ m ih =>
      intro i _ hall
      have h0 := hall 0 (Nat.succ_pos m)
      rw [Nat.add_zero] at h0
      have hhe : handle_exception h (err i) = .raised (err i) := by
        unfold handle_exception
        rw [h0.2]
      have hgu : exception_giveup h (err i) = false := by
        unfold exception_giveup
        rw [h0.2]
      have hw : wrapped_function h f i = .error (err i) := by
        unfold wrapped_function
        rw [h0.1]
        simp [hhe]
      unfold backoffRun
      cases m with
      | zero => simp [hw, hgu]
      | succ k =>
          have hrec := ih (i + 1) (Nat.succ_pos k) (fun j hj => by
            have hsh := hall (j + 1) (by omega)
            rw [show i + (j + 1) = i + 1 + j from by omega] at hsh
            exact hsh)
          have hidx : i + 1 + (k + 1 - 1) = i + (k + 1 + 1 - 1) := by omega
          rw [hidx] at hrec
          simp [hw, hgu, hrec]

/-- C6: when every attempt faults with a kind resolved to `RETRY`, the
bounded-retry wrapper with budget `N` performs exactly the attempts
`0, ..., N-1` (the hypotheses constrain the operation only below `N`) and
propagates the fault of attempt `N-1`; the default budget of `handle`
is 10. -/
theorem retry_exhausts_budget (h : ExceptionHandler) (f : Nat → Except Exc α)
    (err : Nat → Exc) (N : Nat) (hN : 0 < N)
    (hf : ∀ i, i < N → f i = .error (err i))
    (hb : ∀ i, i < N → get_exception_behavior h (err i) = .RETRY) :
    handle h f N = .error (err (N - 1)) ∧ handle h f = handle h f 10 := by
  refine ⟨?_, rfl⟩
  have hmain := backoffRun_retry h f err N 0 hN (fun j hj => by
    constructor
    · simpa using hf j hj
    · simpa using hb j hj)
  simpa [handle] using hmain

/-- Witness for C6 at a concrete input: budget 3, every attempt faults with
kind 1 (mapped to `RETRY`), and the third fault is propagated. -/
theorem retry_exhausts_budget_witness :
    0 < 3 ∧
    handle retryHandler (fun _ => (.error e1 : Except Exc Nat)) 3 = .error e1 :=
  ⟨by decide,
   (retry_exhausts_budget retryHandler (fun _ => (.error e1 : Except Exc Nat))
      (fun _ => e1) 3 (by decide) (fun _ _ => rfl) (fun _ _ => rfl)).1⟩

/-- The while-loop of `_runner` emits no `on_stop` event: every `on_stop`
in a trace comes from the try body or the finally block. -/
theorem runnerLoop_count_on_stop (script : Nat → RunOutcome)
    (active : Nat → Bool) :
    ∀ fuel i, (runnerLoop script active fuel i).1.count Ev.on_stop = 0 := by
  intro fuel
  induction fuel with
  | zero => intro i; rfl
  | succ n ih =>
      intro i
      unfold runnerLoop
      by_cases ha : active i
      · cases hs : script i with
        | fault e => simp [ha, hs]
        | ok => simp [ha, hs, List.count_cons, ih]
      · simp [ha]

/-- Counterexample to C1 as stated: on a normal-exit cycle (the running
flag is observed false at the first loop-head check, no fault is raised)
the worker invokes `on_stop` twice — once at loop exit in the try body and
once in the finally block — not exactly once. -/
theorem on_stop_once_counterexample :
    runnerTrace {} (fun _ => .ok) (fun _ => false) false 1 =
      some ([.on_start, .on_stop, .on_stop], .clean) ∧
    [Ev.on_start, Ev.on_stop, Ev.on_stop].count Ev.on_stop ≠ 1 := by
  exact ⟨rfl, by decide⟩

/-- C1 (amended): per start/stop cycle, `on_stop` is invoked exactly twice
on the normal-exit path (the try body's loop-exit call plus the finally
block's call) and exactly once on the faulted path (the finally block's
call only), never zero times. -/
theorem on_stop_count (h : ExceptionHandler) (script : Nat → RunOutcome)
    (active : Nat → Bool) (final_active : Bool) (fuel : Nat)
    (evs : List Ev) (ex : LoopExit)
    (hrun : runnerLoop script active fuel 0 = (evs, ex))
    (hspin : ex ≠ .spin) :
    ∃ tr, runnerTrace h script active final_active fuel = some tr ∧
      tr.1.count Ev.on_stop = (match ex with | .normal => 2 | _ => 1) := by
  have hcnt := runnerLoop_count_on_stop script active fuel 0
  rw [hrun] at hcnt
  simp only at hcnt
  cases ex with
  | spin => exact absurd rfl hspin
  | normal =>
      refine ⟨(Ev.on_start :: evs ++ [Ev.on_stop, Ev.on_stop] ++
                 (if final_active then [Ev.stop_self] else []),
               if final_active then .stop_error else .clean), ?_, ?_⟩
      · unfold runnerTrace
        rw [hrun]
      · cases final_active <;>
          simp [List.count_append, List.count_cons, hcnt]
  | fault e =>
      cases hhe : handle_exception h e with
      | ret =>
          refine ⟨(Ev.on_start :: evs ++ [Ev.on_stop] ++
                     (if final_active then [Ev.stop_self] else []),
                   if final_active then .stop_error else .clean), ?_, ?_⟩
          · unfold runnerTrace
            rw [hrun]
            simp [hhe]
          · cases final_active <;>
              simp [List.count_append, List.count_cons, hcnt]
      | raised e' =>
          refine ⟨(Ev.on_start :: evs ++ [Ev.on_stop] ++
                     (if final_active then [Ev.stop_self] else []),
                   if final_active then .stop_error else .raised e'), ?_, ?_⟩
          · unfold runnerTrace
            rw [hrun]
            simp [hhe]
          · cases final_active <;>
              simp [List.count_append, List.count_cons, hcnt]

/-- Witness for the amended C1 at a concrete input: a cycle whose first
`run()` call faults with an unmapped kind invokes `on_stop` exactly once. -/
theorem on_stop_count_witness :
    runnerLoop (fun _ => .fault e0) (fun _ => true) 2 0 = ([.run], .fault e0) ∧
    (LoopExit.fault e0 ≠ .spin) ∧
    ∃ tr, runnerTrace {} (fun _ => .fault e0) (fun _ => true) false 2 = some tr ∧
      tr.1.count Ev.on_stop = 1 :=
  ⟨rfl, by decide, by
    have happ := on_stop_count {} (fun _ => .fault e0) (fun _ => true) false 2
      [.run] (.fault e0) rfl (by decide)
    simpa using happ⟩

/-- Counterexample to C2 as stated: fault kind 0 has disposition `CONTINUE`
and `handle_exception` returns normally, yet the worker loop does not
proceed to the next iteration — the running flag stays true and later
`run()` calls would succeed, but the trace shows a single `run` invocation
followed by `on_stop`: the fault terminated the loop (the try/except of
`_runner` encloses the whole while-loop), and the finally block's
`self.stop()` then raises `RuntimeError` out of the thread. -/
theorem fault_continue_counterexample :
    handle_exception contHandler e0 = .ret ∧
    runnerTrace contHandler (fun _ => .fault e0) (fun _ => true) true 5 =
      some ([.on_start, .run, .on_stop, .stop_self], .stop_error) ∧
    [Ev.on_start, Ev.run, Ev.on_stop, Ev.stop_self].count Ev.run = 1 ∧
    [Ev.on_start, Ev.run, Ev.on_stop, Ev.stop_self].count Ev.on_stop = 1 :=
  ⟨rfl, rfl, by decide, by decide⟩

/-- C2 (amended): for a fault whose disposition makes `handle_exception`
return normally (`CONTINUE`, `LOG_AND_CONTINUE`, handled `CUSTOM`),
`handle_exception` does return normally, but the loop terminates at that
fault instead of proceeding to the next iteration: the trace ends with the
events collected up to the fault and one `on_stop`; when the running flag
is still set, the finally block additionally calls `self.stop()`, whose
self-join raises `RuntimeError` out of the thread body, and otherwise the
thread body returns cleanly. -/
theorem fault_ends_loop (h : ExceptionHandler) (script : Nat → RunOutcome)
    (active : Nat → Bool) (final_active : Bool) (fuel : Nat)
    (evs : List Ev) (e : Exc)
    (hrun : runnerLoop script active fuel 0 = (evs, .fault e))
    (hret : handle_exception h e = .ret) :
    runnerTrace h script active final_active fuel =
      some (Ev.on_start :: evs ++ [Ev.on_stop] ++
              (if final_active then [Ev.stop_self] else []),
            if final_active then .stop_error else .clean) ∧
    (Ev.on_start :: evs ++ [Ev.on_stop] ++
       (if final_active then [Ev.stop_self] else [])).count Ev.on_stop = 1 := by
  have hcnt := runnerLoop_count_on_stop script active fuel 0
  rw [hrun] at hcnt
  simp only at hcnt
  constructor
  · unfold runnerTrace
    rw [hrun]
    simp [hret]
  · cases final_active <;>
      simp [List.count_append, List.count_cons, hcnt]

/-- Witness for the amended C2 at a concrete input. -/
theorem fault_ends_loop_witness :
    runnerTrace contHandler (fun _ => .fault e0) (fun _ => true) false 5 =
      some (Ev.on_start :: [Ev.run] ++ [Ev.on_stop] ++
              (if false then [Ev.stop_self] else []),
            if false then .stop_error else .clean) ∧
    (Ev.on_start :: [Ev.run] ++ [Ev.on_stop] ++
       (if false then [Ev.stop_self] else [])).count Ev.on_stop = 1 :=
  fault_ends_loop contHandler (fun _ => .fault e0) (fun _ => true) false 5
    [Ev.run] e0 rfl rfl

/-- The record of watchdog iteration `k + 1` (any iteration after the
first): the heartbeat slot at its wait is exactly the arrivals after the
previous iteration's `clear()` — independent of the previous wait's
outcome and of any `late` arrival the clear discarded. -/
theorem watchdogRun_get_succ (wa dur late btw wa2 : Nat → Bool) :
    ∀ k fuel i ev, k + 1 < fuel → (∀ j, j ≤ k + 1 → wa (i + j) = true) →
      (watchdogRun wa dur late btw wa2 fuel i ev).get? (k + 1) =
        some ⟨btw (i + k), btw (i + k) || dur (i + k + 1),
          if !(btw (i + k) || dur (i + k + 1)) && wa2 (i + k + 1)
          then some false else none⟩ := by
  intro k
  induction k with
  | zero =>
      intro fuel i ev hfuel hwa
      obtain ⟨f1, rfl⟩ : ∃ f1, fuel = f1 + 2 := ⟨fuel - 2, by omega⟩
      have hwa0 : wa i = true := by simpa using hwa 0 (by omega)
      have hwa1 : wa (i + 1) = true := hwa 1 (by omega)
      unfold watchdogRun
      simp only [hwa0, if_true]
      unfold watchdogRun
      simp [watchdogStep, hwa1]
  | succ m ih =>
      intro fuel i ev hfuel hwa
      obtain ⟨f1, rfl⟩ : ∃ f1, fuel = f1 + 1 := ⟨fuel - 1, by omega⟩
      have hwa0 : wa i = true := by simpa using hwa 0 (by omega)
      unfold watchdogRun
      simp only [hwa0, if_true]
      have hrec := ih f1 (i + 1)
        (watchdogStep dur late btw wa2 i ev).2 (by omega)
        (fun j hj => by
          have hsh := hwa (j + 1) (by omega)
          rw [show i + (j + 1) = i + 1 + j from by omega] at hsh
          exact hsh)
      rw [show i + 1 + m = i + (m + 1) from by omega] at hrec
      simpa using hrec

/-- C7: in every watchdog cycle after the first, the heartbeat slot at the
start of the timed wait holds exactly the arrivals after the previous
cycle's `clear()`: a heartbeat arriving between the previous wait's return
(signalled or timed out) and its `clear()` is discarded and never credited
to this cycle, and the wait result and `restart(watchdog := False)`
decision depend only on post-clear arrivals. -/
theorem heartbeat_cleared_every_cycle (wa dur late btw wa2 : Nat → Bool)
    (fuel i : Nat) (ev : Bool) (hfuel : i + 1 < fuel)
    (hwa : ∀ j, j ≤ i + 1 → wa j = true) :
    (watchdogRun wa dur late btw wa2 fuel 0 ev).get? (i + 1) =
      some ⟨btw i, btw i || dur (i + 1),
        if !(btw i || dur (i + 1)) && wa2 (i + 1) then some false else none⟩ := by
  have happ := watchdogRun_get_succ wa dur late btw wa2 i fuel 0 ev hfuel
    (fun j hj => by simpa using hwa j hj)
  simpa using happ

/-- Witness for C7 at a concrete input: the heartbeat that arrives right
after iteration 0's timed-out wait (`late 0 = true`) is discarded, so
iteration 1 times out and invokes `restart(watchdog := False)`. -/
theorem heartbeat_cleared_every_cycle_witness :
    0 + 1 < 3 ∧
    (watchdogRun (fun _ => true) (fun _ => false) (fun _ => true)
        (fun _ => false) (fun _ => true) 3 0 true).get? 1 =
      some ⟨false, false, some false⟩ := by
  refine ⟨by decide, ?_⟩
  have happ := heartbeat_cleared_every_cycle (fun _ => true) (fun _ => false)
    (fun _ => true) (fun _ => false) (fun _ => true) 3 0 true (by decide)
    (fun _ _ => rfl)
  simpa using happ

/-- `_start_thread` does not touch the watchdog fields. -/
theorem startThread_watchdog_frame (s : RunnerState) :
    (startThread s).watchdog_active = s.watchdog_active ∧
    (startThread s).watchdog_thread = s.watchdog_thread ∧
    (startThread s).live_watchdogs = s.live_watchdogs := by
  unfold startThread
  by_cases h : s.thread_active <;> simp [h]

/-- `_stop_thread` does not touch the watchdog fields. -/
theorem stopThread_watchdog_frame (s : RunnerState) :
    (stopThread s).watchdog_active = s.watchdog_active ∧
    (stopThread s).watchdog_thread = s.watchdog_thread ∧
    (stopThread s).live_watchdogs = s.live_watchdogs := by
  unfold stopThread
  by_cases h : s.thread_active <;> simp [h]

/-- C8: a timed-out watchdog wait (with the active flag still set) invokes
`restart` with `watchdog := false` — and never with `watchdog := true` —
and a restart so invoked leaves the watchdog-active flag, the watchdog
thread handle and the set of live watchdog threads untouched: it neither
clears the flag nor joins the watchdog thread that triggered it. -/
theorem watchdog_restart_never_self (dur late btw wa2 : Nat → Bool)
    (i : Nat) (ev : Bool) (s : RunnerState) :
    ((watchdogStep dur late btw wa2 i ev).1.restart_arg = none ∨
     (watchdogStep dur late btw wa2 i ev).1.restart_arg = some false) ∧
    ((watchdogStep dur late btw wa2 i ev).1.wait_result = false →
       wa2 i = true →
       (watchdogStep dur late btw wa2 i ev).1.restart_arg = some false) ∧
    (restart s false).watchdog_active = s.watchdog_active ∧
    (restart s false).watchdog_thread = s.watchdog_thread ∧
    (restart s false).live_watchdogs = s.live_watchdogs := by
  have hframe : restart s false = startThread (stopThread s) := rfl
  refine ⟨?_, ?_, ?_, ?_, ?_⟩
  · unfold watchdogStep
    by_cases hw : (ev || dur i) <;> by_cases h2 : wa2 i <;> simp [hw, h2]
  · intro hres h2
    unfold watchdogStep at hres ⊢
    simp at hres
    simp [hres, h2]
  · rw [hframe, (startThread_watchdog_frame _).1, (stopThread_watchdog_frame _).1]
  · rw [hframe, (startThread_watchdog_frame _).2.1, (stopThread_watchdog_frame _).2.1]
  · rw [hframe, (startThread_watchdog_frame _).2.2, (stopThread_watchdog_frame _).2.2]

/-- Witness for C8 at a concrete input. -/
theorem watchdog_restart_never_self_witness :
    (watchdogStep (fun _ => false) (fun _ => false) (fun _ => false)
        (fun _ => true) 0 false).1.restart_arg = some false ∧
    (restart initial false).watchdog_active = initial.watchdog_active :=
  ⟨(watchdog_restart_never_self (fun _ => false) (fun _ => false)
      (fun _ => false) (fun _ => true) 0 false initial).2.1 rfl rfl,
   (watchdog_restart_never_self (fun _ => false) (fun _ => false)
      (fun _ => false) (fun _ => true) 0 false initial).2.2.1⟩

/-- Field equations for `_start_watchdog`: the worker fields are untouched,
the warning count does not decrease, and the live-watchdog list grows by
the fresh id exactly when no watchdog was active. -/
theorem startWatchdog_fields (s : RunnerState) :
    (startWatchdog s).module_thread = s.module_thread ∧
    (startWatchdog s).live_workers = s.live_workers ∧
    s.warnings ≤ (startWatchdog s).warnings ∧
    (startWatchdog s).live_watchdogs =
      (if s.watchdog_active then s.live_watchdogs
       else s.next_id :: s.live_watchdogs) := by
  unfold startWatchdog
  by_cases h : s.watchdog_active <;> simp [h]

/-- Unpacking of the well-formedness invariant. -/
theorem wf_destruct (s : RunnerState) (hwf : s.wf = true) :
    (s.thread_active = true →
       ∃ t, s.module_thread = some t ∧ s.live_workers = [t]) ∧
    (s.watchdog_active = true →
       ∃ t, s.watchdog_thread = some t ∧ s.live_watchdogs = [t]) ∧
    (s.watchdog_active = false →
       s.watchdog_thread = none ∧ s.live_watchdogs = []) := by
  unfold RunnerState.wf at hwf
  rw [Bool.and_eq_true] at hwf
  obtain ⟨h1, h2⟩ := hwf
  refine ⟨?_, ?_, ?_⟩
  · intro ht
    rw [ht] at h1
    rcases hmt : s.module_thread with _ | t
    · rw [hmt] at h1
      exact absurd h1 (by simp)
    · rw [hmt] at h1
      exact ⟨t, rfl, by simpa using h1⟩
  · intro hw
    rw [hw] at h2
    rcases hwt : s.watchdog_thread with _ | t
    · rw [hwt] at h2
      exact absurd h2 (by simp)
    · rw [hwt] at h2
      exact ⟨t, rfl, by simpa using h2⟩
  · intro hw
    rw [hw] at h2
    rcases hwt : s.watchdog_thread with _ | t
    · rw [hwt] at h2
      exact ⟨rfl, by simpa using h2⟩
    · rw [hwt] at h2
      exact absurd h2 (by simp)

/-- C9: calling `start` on a unit whose running flag is set logs a warning
(the warning count grows) and spawns no additional worker thread: the
worker-thread handle and the set of live worker threads are unchanged, and
(for a well-formed state) at most one worker thread and at most one
watchdog thread exist afterwards. -/
theorem start_when_running (s : RunnerState) (w : Bool)
    (hrun : s.thread_active = true) (hwf : s.wf = true) :
    s.warnings < (start s w).warnings ∧
    (start s w).module_thread = s.module_thread ∧
    (start s w).live_workers = s.live_workers ∧
    (start s w).live_workers.length ≤ 1 ∧
    (start s w).live_watchdogs.length ≤ 1 := by
  obtain ⟨hworker, hwdog, hwdogoff⟩ := wf_destruct s hwf
  obtain ⟨t, _, hlw⟩ := hworker hrun
  have h1 : startThread s = { s with warnings := s.warnings + 1 } := by
    unfold startThread
    simp [hrun]
  cases w with
  | false =>
      have hs : start s false = { s with warnings := s.warnings + 1 } := by
        simp [start, h1]
      rw [hs]
      refine ⟨by simp, rfl, rfl, by simp [hlw], ?_⟩
      cases hwa : s.watchdog_active with
      | true =>
          obtain ⟨u, _, hl⟩ := hwdog hwa
          simp [hl]
      | false => simp [(hwdogoff hwa).2]
  | true =>
      have hs : start s true = startWatchdog { s with warnings := s.warnings + 1 } := by
        simp [start, h1]
      rw [hs]
      obtain ⟨f1, f2, f3, f4⟩ :=
        startWatchdog_fields { s with warnings := s.warnings + 1 }
      simp only at f1 f2 f3 f4
      refine ⟨?_, ?_, ?_, ?_, ?_⟩
      · exact lt_of_lt_of_le (by omega) f3
      · exact f1
      · exact f2
      · rw [f2, hlw]
        simp
      · rw [f4]
        cases hwa : s.watchdog_active with
        | true =>
            obtain ⟨u, _, hl⟩ := hwdog hwa
            simp [hwa, hl]
        | false => simp [hwa, (hwdogoff hwa).2]

/-- Witness for C9 at a concrete input: a unit started without a watchdog
is running and well-formed, and a second `start` only logs a warning. -/
theorem start_when_running_witness :
    (start initial false).thread_active = true ∧
    (start initial false).wf = true ∧
    (start initial false).warnings < (start (start initial false) true).warnings :=
  ⟨by decide, by decide,
   (start_when_running (start initial false) true (by decide) (by decide)).1⟩

end Coordinator
